import Mathlib

/-!
Verification of the update-classification and handler-dispatch engine of the
aiotg Telegram bot framework (src/aiotg/bot.py, src/aiotg/chat.py).

The dispatcher works over semi-structured JSON records; we embed those as the
inductive `Value`.  Handlers are opaque callables in the source; here a handler
is an abstract tag (`Handler`) and dispatch resolves to a description of the
invocation it would fire (which handler, with which arguments) instead of
running it — in the source every resolved handler is merely wrapped in
`asyncio.ensure_future` and never awaited by the dispatcher, so the dispatch
result is exactly this invocation description.  Python's `re.search(p, s, re.I)`
is an external library call and is modelled as an oracle parameter
`search : String → String → Option RMatch`.  Operations that can raise
(`d[k]` → KeyError/TypeError, missing attribute → AttributeError) return
`Except PyErr`.
-/

namespace Aiotg

/-- A JSON-like Python value: string, integer, object (dict with insertion
order), or array. -/
inductive Value where
  | vs : String → Value
  | vn : Nat → Value
  | obj : List (String × Value) → Value
  | arr : List Value → Value

/-- Python `d[k]` on a `Value`: KeyError when the key is absent from a dict,
TypeError when subscripting a non-dict with a string key. -/
inductive PyErr where
  | keyError : String → PyErr
  | typeError : PyErr
  | attributeError : String → PyErr
deriving DecidableEq

def Value.getItem : Value → String → Except PyErr Value
  | .obj fields, k =>
    match fields.lookup k with
    | some v => .ok v
    | none => .error (.keyError k)
  | _, _ => .error .typeError

/-- Python `k in d` for a dict value (`False` for non-dicts). -/
def Value.hasKey : Value → String → Bool
  | .obj fields, k => (fields.lookup k).isSome
  | _, _ => false

/-- Python `d.get(k)`: `None` when absent. -/
def Value.get? : Value → String → Option Value
  | .obj fields, k => fields.lookup k
  | _, _ => none

/-- `re.search` requires a string subject; anything else raises TypeError. -/
def Value.asString : Value → Except PyErr String
  | .vs s => .ok s
  | _ => .error .typeError

/-- Python dict assignment `d[k] = v` on an insertion-ordered association
list: replaces in place when the key exists, appends otherwise. -/
def dictSet (d : List (String × α)) (k : String) (v : α) : List (String × α) :=
  if d.any (fun p => p.1 == k) then
    d.map (fun p => if p.1 == k then (p.1, v) else p)
  else d ++ [(k, v)]

/-- Result of a successful `re.search(pattern, string, re.I)`; the match
object is opaque to the dispatcher, which only forwards it to handlers. -/
structure RMatch where
  re_pattern : String
  subject : String
deriving DecidableEq

/-- Oracle modelling `fun p s => re.search(p, s, re.I)`. -/
abbrev ReSearch := String → String → Option RMatch

/-- An opaque handler callable: either the per-subtype `no_handle(mt)` closure
installed by `Bot.__init__`, one of the initial default lambdas (tagged by
slot name), or a user-registered function (tagged by an id). -/
inductive Handler where
  | noHandle : String → Handler
  | initDefault : String → Handler
  | user : Nat → Handler
deriving DecidableEq

/-- `Chat` as built by `Chat.from_message` / the factories in chat.py: the
fields dispatch depends on (`id`, `type`, originating message). -/
structure Chat where
  chat_id : Value
  type : Value
  message : Option Value

/-- Python `v == "lit"` for a semi-structured value: true exactly when `v` is
that string (a non-string value compares unequal to a string). -/
def Value.eqStr : Value → String → Bool
  | .vs s, t => s == t
  | _, _ => false

/-- chat.py `Chat.is_group`: type is "group" or "supergroup". -/
def Chat.is_group (c : Chat) : Bool :=
  c.type.eqStr "group" || c.type.eqStr "supergroup"

/-- chat.py `Chat.from_message`: `chat = message["chat"]`, then
`Chat(bot, chat["id"], chat["type"], message)`. -/
def Chat.from_message (message : Value) : Except PyErr Chat := do
  let chat ← message.getItem "chat"
  let i ← chat.getItem "id"
  let t ← chat.getItem "type"
  pure { chat_id := i, type := t, message := some message }

/-- bot.py `InlineQuery.__init__`: reads `from`, `id`, `query`. -/
structure InlineQuery where
  sender : Value
  query_id : Value
  query : Value

def InlineQuery.make (src : Value) : Except PyErr InlineQuery := do
  let sender ← src.getItem "from"
  let qid ← src.getItem "id"
  let q ← src.getItem "query"
  pure { sender := sender, query_id := qid, query := q }

/-- bot.py `CallbackQuery.__init__`: reads `id` and `data` unconditionally
(KeyError when `data` is absent). -/
structure CallbackQuery where
  query_id : Value
  data : Value
  src : Value

def CallbackQuery.make (src : Value) : Except PyErr CallbackQuery := do
  let qid ← src.getItem "id"
  let d ← src.getItem "data"
  pure { query_id := qid, data := d, src := src }

/-- bot.py `ChosenInlineResult.__init__`: reads `from`, `result_id`, `query`;
`location` and `inline_messages_id` via `.get`. -/
structure ChosenInlineResult where
  sender : Value
  result_id : Value
  location : Option Value
  inline_message_id : Option Value
  query : Value

def ChosenInlineResult.make (src : Value) : Except PyErr ChosenInlineResult := do
  let sender ← src.getItem "from"
  let rid ← src.getItem "result_id"
  let q ← src.getItem "query"
  pure { sender := sender, result_id := rid, location := src.get? "location",
         inline_message_id := src.get? "inline_messages_id", query := q }

/-- bot.py `PreCheckoutQuery.__init__`: reads `from`, `id`, `currency`,
`total_amount`, `invoice_payload`. -/
structure PreCheckoutQuery where
  sender : Value
  query_id : Value
  currency : Value
  total_amount : Value
  invoice_payload : Value

def PreCheckoutQuery.make (src : Value) : Except PyErr PreCheckoutQuery := do
  let sender ← src.getItem "from"
  let qid ← src.getItem "id"
  let cur ← src.getItem "currency"
  let amt ← src.getItem "total_amount"
  let inv ← src.getItem "invoice_payload"
  pure { sender := sender, query_id := qid, currency := cur,
         total_amount := amt, invoice_payload := inv }

/-- A positional argument of a resolved handler invocation. -/
inductive PyObj where
  | pyNone : PyObj
  | chat : Chat → PyObj
  | val : Value → PyObj
  | reMatch : RMatch → PyObj
  | cbq : CallbackQuery → PyObj
  | inq : InlineQuery → PyObj
  | pcq : PreCheckoutQuery → PyObj
  | cir : ChosenInlineResult → PyObj

/-- A resolved handler invocation: the callable and its argument list. -/
def Invocation := Handler × List PyObj

/-- bot.py `MESSAGE_TYPES`: the fixed list of message subtype names, exactly
as written in the source (including the duplicated "delete_chat_photo"). -/
def MESSAGE_TYPES : List String :=
  ["location", "photo", "document", "audio", "voice", "sticker", "contact",
   "venue", "video", "game", "delete_chat_photo", "new_chat_photo",
   "delete_chat_photo", "new_chat_member", "left_chat_member",
   "new_chat_title", "group_chat_created", "successful_payment"]

/-- bot.py `MESSAGE_UPDATES`: the top-level update keys treated as message
payloads, exactly as written in the source (five entries). -/
def MESSAGE_UPDATES : List String :=
  ["message", "edited_message", "channel_post", "edited_channel_post",
   "successful_payment"]

/-- The dispatch-relevant state of bot.py `Bot`: the registration tables, the
default slots, the `default_in_groups` flag and the polling offset.  Field
names follow the source.  `_default_checkout` is an `Option` because
`Bot.__init__` never initialises that attribute: it exists only after
`Bot.checkout` was called with a callable, and reading it before that raises
AttributeError. -/
structure Bot where
  default_in_groups : Bool
  _handlers : List (String × Handler)
  _commands : List (String × Handler)
  _callbacks : List (String × Handler)
  _inlines : List (String × Handler)
  _chosen_inline_result_callbacks : List (String × Handler)
  _checkouts : List (String × Handler)
  _default : Handler
  _default_callback : Handler
  _default_inline : Handler
  _default_chosen_inline_result_callback : Handler
  _default_checkout : Option Handler
  _offset : Nat

/-- bot.py `Bot.__init__`: empty pattern tables, the `no_handle(mt)` closures
for every name in `MESSAGE_TYPES` (a dict comprehension, so the duplicate key
collapses in place), the four initial default lambdas, offset 0, and no
`_default_checkout` attribute. -/
def Bot.init (default_in_groups : Bool) : Bot where
  default_in_groups := default_in_groups
  _handlers := MESSAGE_TYPES.foldl (fun d mt => dictSet d mt (.noHandle mt)) []
  _commands := []
  _callbacks := []
  _inlines := []
  _chosen_inline_result_callbacks := []
  _checkouts := []
  _default := .initDefault "default"
  _default_callback := .initDefault "default_callback"
  _default_inline := .initDefault "default_inline"
  _default_chosen_inline_result_callback :=
    .initDefault "default_chosen_inline_result_callback"
  _default_checkout := none
  _offset := 0

/-- bot.py `Bot.add_command`: append `(regexp, fn)` to `_commands`. -/
def Bot.add_command (b : Bot) (regexp : String) (fn : Handler) : Bot :=
  { b with _commands := b._commands ++ [(regexp, fn)] }

/-- bot.py `Bot.add_callback`: append `(regexp, fn)` to `_callbacks`. -/
def Bot.add_callback (b : Bot) (regexp : String) (fn : Handler) : Bot :=
  { b with _callbacks := b._callbacks ++ [(regexp, fn)] }

/-- bot.py `Bot.add_inline`: append `(regexp, fn)` to `_inlines`. -/
def Bot.add_inline (b : Bot) (regexp : String) (fn : Handler) : Bot :=
  { b with _inlines := b._inlines ++ [(regexp, fn)] }

/-- bot.py `Bot.add_checkout`: append `(regexp, fn)` to `_checkouts`. -/
def Bot.add_checkout (b : Bot) (regexp : String) (fn : Handler) : Bot :=
  { b with _checkouts := b._checkouts ++ [(regexp, fn)] }

/-- bot.py `Bot.add_chosen_inline_result_callback`. -/
def Bot.add_chosen_inline_result_callback
    (b : Bot) (regexp : String) (fn : Handler) : Bot :=
  { b with _chosen_inline_result_callbacks :=
      b._chosen_inline_result_callbacks ++ [(regexp, fn)] }

/-- bot.py `Bot.default`: `self._default = callback` (replaces the slot). -/
def Bot.set_default (b : Bot) (callback : Handler) : Bot :=
  { b with _default := callback }

/-- bot.py `Bot.callback` applied to a callable (not a pattern string):
`self._default_callback = callback` (replaces the slot). -/
def Bot.callback_default (b : Bot) (callback : Handler) : Bot :=
  { b with _default_callback := callback }

/-- bot.py `Bot.inline` applied to a callable: replaces `_default_inline`. -/
def Bot.inline_default (b : Bot) (callback : Handler) : Bot :=
  { b with _default_inline := callback }

/-- bot.py `Bot.checkout` applied to a callable: sets the
`_default_checkout` attribute (which until then does not exist). -/
def Bot.checkout_default (b : Bot) (callback : Handler) : Bot :=
  { b with _default_checkout := some callback }

/-- bot.py `Bot.handle`: `self._handlers[msg_type] = callback` — a plain dict
assignment with no validation of `msg_type`. -/
def Bot.handle (b : Bot) (msg_type : String) (callback : Handler) : Bot :=
  { b with _handlers := dictSet b._handlers msg_type callback }

/-- One `for patterns, handler in table: m = re.search(patterns, subject,
re.I); if m: return handler, m` scan, shared verbatim by the command,
callback, inline, chosen-inline-result and checkout loops in bot.py.
`re.search` raises TypeError when the subject is not a string (only when the
loop body actually runs, hence the per-iteration `asString`). -/
def scanTable (search : ReSearch) :
    List (String × Handler) → Value → Except PyErr (Option (Handler × RMatch))
  | [], _ => .ok none
  | (patterns, handler) :: rest, subject =>
    match subject.asString with
    | .error e => .error e
    | .ok s =>
      match search patterns s with
      | some m => .ok (some (handler, m))
      | none => scanTable search rest subject

/-- The handler argument standing for the Python variable `chat`, which may
hold `None`. -/
def chatArg : Option Chat → PyObj
  | none => .pyNone
  | some c => .chat c

/-- Python truthiness of `chat and not chat.is_group()` (falsy when `chat`
is `None`). -/
def chatNotGroup : Option Chat → Bool
  | some c => !c.is_group
  | none => false

/-- bot.py `Bot._process_message`: build the `Chat`, scan `_handlers` for the
first subtype key present in the message, else (when a `text` key exists)
scan `_commands`, else run `_default` unless the chat is a group and
`default_in_groups` is off. -/
def Bot.process_message (search : ReSearch) (b : Bot) (message : Value) :
    Except PyErr (Option Invocation) := do
  let chat ← Chat.from_message message
  match b._handlers.find? (fun p => message.hasKey p.1) with
  | some (mt, func) => do
    let payload ← message.getItem mt
    pure (some (func, [.chat chat, .val payload]))
  | none =>
    if !message.hasKey "text" then
      pure none
    else do
      match ← scanTable search b._commands (← message.getItem "text") with
      | some (handler, m) => pure (some (handler, [.chat chat, .reMatch m]))
      | none =>
        if !chat.is_group || b.default_in_groups then
          pure (some (b._default, [.chat chat, .val message]))
        else
          pure none

/-- bot.py `Bot._process_inline_query`. -/
def Bot.process_inline_query (search : ReSearch) (b : Bot) (query : Value) :
    Except PyErr (Option Invocation) := do
  let iq ← InlineQuery.make query
  match ← scanTable search b._inlines (← query.getItem "query") with
  | some (handler, m) => pure (some (handler, [.inq iq, .reMatch m]))
  | none => pure (some (b._default_inline, [.inq iq]))

/-- bot.py `Bot._process_chosen_inline_result`. -/
def Bot.process_chosen_inline_result
    (search : ReSearch) (b : Bot) (result : Value) :
    Except PyErr (Option Invocation) := do
  let cir ← ChosenInlineResult.make result
  match ← scanTable search b._chosen_inline_result_callbacks
      (← result.getItem "query") with
  | some (handler, m) => pure (some (handler, [.cir cir, .reMatch m]))
  | none => pure (some (b._default_chosen_inline_result_callback, [.cir cir]))

/-- The `chat = Chat.from_message(self, query["message"]) if "message" in
query else None` step of bot.py `Bot._process_callback_query`. -/
def resolveChat (query : Value) : Except PyErr (Option Chat) :=
  if query.hasKey "message" then do
    let m ← query.getItem "message"
    let c ← Chat.from_message m
    pure (some c)
  else
    pure none

/-- bot.py `Bot._process_callback_query`: resolve the chat (None when no
embedded message), build the `CallbackQuery`, scan `_callbacks` against
`cq.data`; on no match run `_default_callback` when
`chat and not chat.is_group() or self.default_in_groups` — which by Python
precedence is `(chat is not None and not group) or default_in_groups`. -/
def Bot.process_callback_query (search : ReSearch) (b : Bot) (query : Value) :
    Except PyErr (Option Invocation) := do
  let chat ← resolveChat query
  let cq ← CallbackQuery.make query
  match ← scanTable search b._callbacks cq.data with
  | some (handler, m) => pure (some (handler, [chatArg chat, .cbq cq, .reMatch m]))
  | none =>
    if chatNotGroup chat || b.default_in_groups then
      pure (some (b._default_callback, [chatArg chat, .cbq cq]))
    else
      pure none

/-- bot.py `Bot._process_pre_checkout_query`: build the `PreCheckoutQuery`,
scan `_checkouts` against the invoice payload; on no match read
`self._default_checkout`, which raises AttributeError when `Bot.checkout`
was never called with a callable. -/
def Bot.process_pre_checkout_query
    (search : ReSearch) (b : Bot) (query : Value) :
    Except PyErr (Option Invocation) := do
  let pcq ← PreCheckoutQuery.make query
  match ← scanTable search b._checkouts pcq.invoice_payload with
  | some (handler, m) => pure (some (handler, [.pcq pcq, .reMatch m]))
  | none =>
    match b._default_checkout with
    | some handler => pure (some (handler, [.pcq pcq]))
    | none => .error (.attributeError "_default_checkout")

/-- One raw update: bot.py reads `update["update_id"]` (always present and an
integer on real updates, lifted to a field here) and classifies by the
remaining top-level keys. -/
structure Update where
  update_id : Nat
  fields : List (String × Value)

/-- bot.py `Bot._process_update`: advance the offset to
`max(self._offset, update["update_id"])` first, then classify — the first
key of `MESSAGE_UPDATES` present wins and goes to `_process_message`,
otherwise `inline_query`, `callback_query`, `pre_checkout_query`,
`chosen_inline_result` are tried in that order; anything else is logged and
dropped.  Returns the updated bot and the resolved invocation (or error). -/
def Bot.process_update (search : ReSearch) (b : Bot) (u : Update) :
    Bot × Except PyErr (Option Invocation) :=
  let b1 : Bot := { b with _offset := max b._offset u.update_id }
  let res : Except PyErr (Option Invocation) :=
    match MESSAGE_UPDATES.findSome? (fun ut => u.fields.lookup ut) with
    | some payload => b1.process_message search payload
    | none =>
      match u.fields.lookup "inline_query" with
      | some q => b1.process_inline_query search q
      | none =>
        match u.fields.lookup "callback_query" with
        | some q => b1.process_callback_query search q
        | none =>
          match u.fields.lookup "pre_checkout_query" with
          | some q => b1.process_pre_checkout_query search q
          | none =>
            match u.fields.lookup "chosen_inline_result" with
            | some q => b1.process_chosen_inline_result search q
            | none => .ok none
  (b1, res)

/-- A `getUpdates` response: the `ok` flag and the `result` batch. -/
structure Batch where
  ok : Bool
  result : List Update

/-- The `for update in updates["result"]` loop of bot.py
`Bot._process_updates`: each update is dispatched in order; an exception
escaping `_process_update` aborts the loop there (offset already advanced
for the raising update) and propagates. -/
def Bot.process_updates_go (search : ReSearch) :
    Bot → List Update → Bot × Except PyErr (List (Option Invocation))
  | b, [] => (b, .ok [])
  | b, u :: rest =>
    let (b1, r) := b.process_update search u
    match r with
    | .error e => (b1, .error e)
    | .ok inv =>
      let (b2, rs) := Bot.process_updates_go search b1 rest
      (b2, rs.map (fun l => inv :: l))

/-- bot.py `Bot._process_updates`: when `updates["ok"]` is false the batch is
logged and discarded (bot state untouched, nothing dispatched); otherwise
every update in `updates["result"]` is dispatched in order. -/
def Bot.process_updates (search : ReSearch) (b : Bot) (batch : Batch) :
    Bot × Except PyErr (List (Option Invocation)) :=
  if !batch.ok then (b, .ok [])
  else Bot.process_updates_go search b batch.result

/-- One iteration of bot.py `Bot.loop`: a single `getUpdates` RPC with
`offset=self._offset + 1` (the RPC is the oracle `getUpdates`), whose whole
response batch is then fed to `_process_updates`. -/
def Bot.loop_iter (search : ReSearch) (b : Bot) (getUpdates : Nat → Batch) :
    Bot × Except PyErr (List (Option Invocation)) :=
  b.process_updates search (getUpdates (b._offset + 1))

/-- The handler resolved by a dispatch result, when any. -/
def invokedHandler : Except PyErr (Option Invocation) → Option Handler
  | .ok (some (h, _)) => some h
  | _ => none

/-- The distinct keys of `Bot.__init__`'s handler dict in iteration order:
`MESSAGE_TYPES` with the duplicated "delete_chat_photo" collapsed in place. -/
def HANDLER_KEYS : List String :=
  ["location", "photo", "document", "audio", "voice", "sticker", "contact",
   "venue", "video", "game", "delete_chat_photo", "new_chat_photo",
   "new_chat_member", "left_chat_member", "new_chat_title",
   "group_chat_created", "successful_payment"]

/-- The maximum `update_id` of a batch (0 for an empty batch). -/
def batchMax (us : List Update) : Nat :=
  us.foldl (fun a u => max a u.update_id) 0

/-- Oracle for a `re.search` that matches nothing. -/
def searchNone : ReSearch := fun _ _ => none

/-- Oracle for a `re.search` under which every pattern matches every string
(e.g. "/echo (.+)" and "/e.*" both match "/echo foo"). -/
def searchAll : ReSearch := fun p s => some { re_pattern := p, subject := s }

/-- A private chat record. -/
def chatPrivObj : Value := .obj [("id", .vn 1), ("type", .vs "private")]

/-- A group chat record. -/
def chatGroupObj : Value := .obj [("id", .vn 2), ("type", .vs "group")]

/-- A plain text message "/echo foo" in a private chat. -/
def msgEcho : Value := .obj [("chat", chatPrivObj), ("text", .vs "/echo foo")]

/-- A message carrying both a `photo` subtype key and a command-matching
`text` key. -/
def msgPhotoCmd : Value :=
  .obj [("chat", chatPrivObj), ("photo", .arr []), ("text", .vs "/echo x")]

/-- A plain text message in a group chat matching no command. -/
def msgGroupTxt : Value := .obj [("chat", chatGroupObj), ("text", .vs "hello")]

/-- A message whose only content key is the non-standard name "manifesto". -/
def msgManifesto : Value :=
  .obj [("chat", chatPrivObj), ("manifesto", .vs "m")]

/-- A callback query originating from a group chat. -/
def cbGroupQuery : Value :=
  .obj [("id", .vn 7), ("data", .vs "x"),
        ("message", .obj [("chat", chatGroupObj)])]

/-- A callback query with no embedded originating message. -/
def cbNoChatQuery : Value := .obj [("id", .vn 8), ("data", .vs "z")]

/-- A well-typed pre-checkout query payload. -/
def pcqObj : Value :=
  .obj [("from", .obj []), ("id", .vn 5), ("currency", .vs "USD"),
        ("total_amount", .vn 100), ("invoice_payload", .vs "x")]

/-- An update carrying the pre-checkout query. -/
def pcqUpdate : Update := { update_id := 1, fields := [("pre_checkout_query", pcqObj)] }

/-- An update carrying a callback query that lacks the optional `data` field. -/
def cbNoDataUpdate : Update :=
  { update_id := 2, fields := [("callback_query", .obj [("id", .vn 9)])] }

/-- A well-typed inline query payload. -/
def inlineObj : Value :=
  .obj [("from", .obj []), ("id", .vn 3), ("query", .vs "q")]

/-- A message payload as carried under a top-level "successful_payment" key. -/
def spMsg : Value := .obj [("chat", chatPrivObj), ("text", .vs "hi")]

/-- An update with top-level keys "successful_payment" and "inline_query" but
none of message/edited_message/channel_post/edited_channel_post. -/
def spUpdate : Update :=
  { update_id := 1,
    fields := [("successful_payment", spMsg), ("inline_query", inlineObj)] }

/-- An update carrying an ordinary "message" key. -/
def msgUpdate : Update := { update_id := 4, fields := [("message", msgEcho)] }

/-- An update with no recognized top-level key. -/
def unknownUpdate : Update := { update_id := 9, fields := [("zzz", .vn 0)] }

/-- A successful batch with update ids in the order [3, 1, 5]. -/
def batch315 : Batch :=
  { ok := true,
    result := [{ update_id := 3, fields := [] },
               { update_id := 1, fields := [] },
               { update_id := 5, fields := [] }] }

/-- A failed (`ok: false`) batch. -/
def badBatch : Batch :=
  { ok := false, result := [{ update_id := 42, fields := [] }] }

/-- True when a dispatch computation returned without raising. -/
def exceptOk : Except PyErr α → Bool
  | .ok _ => true
  | .error _ => false

/-- A callback query embedding a private-chat originating message. -/
def cbPrivQuery : Value :=
  .obj [("id", .vn 7), ("data", .vs "x"),
        ("message", .obj [("chat", chatPrivObj)])]

/-- A bot with the commands "/echo (.+)" then "/e.*", in that order. -/
def botEcho : Bot :=
  ((Bot.init false).add_command "/echo (.+)" (.user 1)).add_command "/e.*" (.user 2)

/-- A bot with a user photo handler and an "/echo (.+)" command. -/
def botPhoto : Bot :=
  ((Bot.init false).handle "photo" (.user 1)).add_command "/echo (.+)" (.user 2)

/-! Helper lemmas about the embedding. -/

theorem bind_ok_eq {α β : Type} (a : α) (f : α → Except PyErr β) :
    (Except.ok a : Except PyErr α) >>= f = f a := rfl

theorem bind_error_eq {α β : Type} (e : PyErr) (f : α → Except PyErr β) :
    (Except.error e : Except PyErr α) >>= f = Except.error e := rfl

theorem pure_eq_ok {α : Type} (a : α) : (pure a : Except PyErr α) = Except.ok a := rfl

theorem hasKey_of_getItem_ok {v : Value} {k : String} {x : Value}
    (h : v.getItem k = .ok x) : v.hasKey k = true := by
  cases v with
  | obj fields =>
    simp only [Value.getItem] at h
    cases hl : fields.lookup k with
    | none => rw [hl] at h; exact absurd h (by simp)
    | some w => simp [Value.hasKey, hl]
  | vs s => simp [Value.getItem] at h
  | vn n => simp [Value.getItem] at h
  | arr l => simp [Value.getItem] at h

theorem scanTable_cons_some (search : ReSearch) {pat : String} {hd : Handler}
    {rest : List (String × Handler)} {s : String} {m : RMatch}
    (hm : search pat s = some m) :
    scanTable search ((pat, hd) :: rest) (.vs s) = .ok (some (hd, m)) := by
  simp [scanTable, Value.asString, hm]

theorem scanTable_append_none (search : ReSearch) {pre : List (String × Handler)}
    (rest : List (String × Handler)) {s : String}
    (hp : ∀ q ∈ pre, search q.1 s = none) :
    scanTable search (pre ++ rest) (.vs s) = scanTable search rest (.vs s) := by
  induction pre with
  | nil => rfl
  | cons q pre ih =>
    obtain ⟨pat, hd⟩ := q
    have h1 : search pat s = none := hp (pat, hd) (by simp)
    simp only [List.cons_append, scanTable, Value.asString, h1]
    exact ih (fun q hq => hp q (by simp [hq]))

theorem scanTable_none (search : ReSearch) {tbl : List (String × Handler)}
    {s : String} (hp : ∀ q ∈ tbl, search q.1 s = none) :
    scanTable search tbl (.vs s) = .ok none := by
  induction tbl with
  | nil => rfl
  | cons q tbl ih =>
    obtain ⟨pat, hd⟩ := q
    have h1 : search pat s = none := hp (pat, hd) (by simp)
    simp only [scanTable, Value.asString, h1]
    exact ih (fun q hq => hp q (by simp [hq]))

theorem find?_append_eq {α : Type} {pre rest : List α} {f : α → Bool}
    (hp : ∀ x ∈ pre, f x = false) :
    (pre ++ rest).find? f = rest.find? f := by
  induction pre with
  | nil => rfl
  | cons x pre ih =>
    have h1 : f x = false := hp x (by simp)
    simp only [List.cons_append, List.find?, h1]
    exact ih (fun y hy => hp y (by simp [hy]))

theorem process_update_fst (search : ReSearch) (b : Bot) (u : Update) :
    (b.process_update search u).1
      = { b with _offset := max b._offset u.update_id } := rfl

/-! Whole-claim theorems. -/

/-- C5 (code_bug evidence): the dispatch contract says dispatch never raises
for malformed-but-well-typed updates, but the code raises.  A well-typed
pre-checkout query that matches no checkout pattern on a bot whose
`Bot.checkout` was never called raises AttributeError, because `Bot.__init__`
initialises a default slot for every other category but not
`_default_checkout`; and a callback query lacking the optional `data` field
raises KeyError in `CallbackQuery.__init__`. -/
theorem C5_dispatch_raises :
    ((Bot.init false).process_update searchNone pcqUpdate).2
      = .error (.attributeError "_default_checkout")
    ∧ ((Bot.init false).process_update searchNone cbNoDataUpdate).2
      = .error (.keyError "data") := ⟨rfl, rfl⟩

/-- C6 counterexample: the update `spUpdate` contains none of the four
message-like keys the claim enumerates but does contain `inline_query`, so
under the claim it would be routed to the inline-query processor (invoking
the inline default `Handler.initDefault "default_inline"` on a fresh bot).
The code instead treats its "successful_payment" key — the fifth entry of
`MESSAGE_UPDATES` — as a message payload and resolves the message-path
default handler, a different handler. -/
theorem C6_counterexample :
    invokedHandler ((Bot.init false).process_update searchNone spUpdate).2
      = some (Handler.initDefault "default")
    ∧ some (Handler.initDefault "default")
        ≠ some (Handler.initDefault "default_inline") := ⟨rfl, by decide⟩

/-- C7 counterexample: a callback query originating from a group chat whose
data matches no registered pattern, on a bot with `default_in_groups` off,
resolves to no invocation at all — the default callback handler is not
invoked, contradicting the claim that every no-match callback query invokes
the default exactly once. -/
theorem C7_counterexample :
    (Bot.init false).process_callback_query searchNone cbGroupQuery
      = .ok none := rfl

/-- C8 counterexample: registering a handler under the name "manifesto",
which is outside the fixed `MESSAGE_TYPES` set, does not fail: the binding
is created (first conjunct) and is consulted at dispatch time (second
conjunct, where a message carrying a "manifesto" key routes to the new
handler), contradicting the claim that such a registration is rejected at
registration time. -/
theorem C8_counterexample :
    ((((Bot.init false).handle "manifesto" (.user 7))._handlers).lookup "manifesto"
      = some (.user 7))
    ∧ (((Bot.init false).handle "manifesto" (.user 7)).process_message
        searchNone msgManifesto
      = .ok (some (.user 7,
          [.chat ⟨.vn 1, .vs "private", some msgManifesto⟩, .val (.vs "m")])))
    := ⟨rfl, rfl⟩

theorem foldl_max_shift (us : List Update) :
    ∀ a c : Nat, us.foldl (fun x u => max x u.update_id) (max a c)
      = max a (us.foldl (fun x u => max x u.update_id) c) := by
  induction us with
  | nil => intro a c; rfl
  | cons u us ih =>
    intro a c
    simp only [List.foldl_cons]
    rw [max_assoc, ih]

theorem foldl_max_eq (us : List Update) (o : Nat) :
    us.foldl (fun x u => max x u.update_id) o = max o (batchMax us) := by
  have h := foldl_max_shift us o 0
  simpa [batchMax] using h

theorem batchMax_cons (v : Update) (us : List Update) :
    batchMax (v :: us) = max v.update_id (batchMax us) := by
  rw [batchMax, List.foldl_cons, Nat.zero_max]
  exact foldl_max_eq us v.update_id

theorem le_batchMax {u : Update} : ∀ {us : List Update}, u ∈ us →
    u.update_id ≤ batchMax us := by
  intro us
  induction us with
  | nil => intro h; cases h
  | cons v us ih =>
    intro h
    rw [batchMax_cons]
    rcases List.mem_cons.mp h with h | h
    · subst h; exact le_max_left _ _
    · exact (ih h).trans (le_max_right _ _)

theorem process_updates_go_offset (search : ReSearch) (us : List Update) :
    ∀ b : Bot, exceptOk (Bot.process_updates_go search b us).2 = true →
      (Bot.process_updates_go search b us).1._offset
        = us.foldl (fun a u => max a u.update_id) b._offset := by
  induction us with
  | nil => intro b _; rfl
  | cons u us ih =>
    intro b hok
    rcases hpu : b.process_update search u with ⟨b1, r⟩
    have hb1 : b1._offset = max b._offset u.update_id := by
      have h1 : (Bot.process_update search b u).1 = b1 := by rw [hpu]
      rw [← h1]
      rfl
    cases r with
    | error e =>
      exfalso
      simp only [Bot.process_updates_go, hpu] at hok
      simp [exceptOk] at hok
    | ok inv =>
      simp only [Bot.process_updates_go, hpu] at hok ⊢
      rcases hgo : Bot.process_updates_go search b1 us with ⟨b2, rs⟩
      cases rs with
      | error e => rw [hgo] at hok; simp [exceptOk, Except.map] at hok
      | ok l =>
        have h2 := ih b1 (by rw [hgo]; rfl)
        rw [hgo] at h2
        show b2._offset
          = us.foldl (fun a u => max a u.update_id) (max b._offset u.update_id)
        rw [← hb1]
        exact h2

/-- C1: the polling offset after a successfully processed batch equals the
maximum `update_id` seen in the batch (given the platform invariant that ids
are not below the current offset and the batch is nonempty); for each
individual update the offset becomes `max(current, update_id)`
unconditionally, before classification, and the new offset depends only on
the previous offset and the update id — never on the registration tables,
the classification outcome or any handler. -/
theorem C1_offset_after_batch (search : ReSearch) (b : Bot) (batch : Batch)
    (hok : batch.ok = true)
    (hnoerr : exceptOk (b.process_updates search batch).2 = true)
    (hge : ∀ u ∈ batch.result, b._offset ≤ u.update_id)
    (hne : batch.result ≠ []) :
    (b.process_updates search batch).1._offset = batchMax batch.result
    ∧ (∀ (b2 : Bot) (u : Update),
        (b2.process_update search u).1._offset = max b2._offset u.update_id)
    ∧ (∀ (b2 b3 : Bot) (u : Update), b2._offset = b3._offset →
        (b2.process_update search u).1._offset
          = (b3.process_update search u).1._offset) := by
  refine ⟨?_, fun b2 u => rfl, fun b2 b3 u h => ?_⟩
  · have hpu : b.process_updates search batch
        = Bot.process_updates_go search b batch.result := by
      simp [Bot.process_updates, hok]
    rw [hpu] at hnoerr ⊢
    rw [process_updates_go_offset search batch.result b hnoerr, foldl_max_eq]
    rcases List.exists_mem_of_ne_nil batch.result hne with ⟨u, hu⟩
    exact Nat.max_eq_right ((hge u hu).trans (le_batchMax hu))
  · show max b2._offset u.update_id = max b3._offset u.update_id
    rw [h]

/-- C1 witness: a fresh bot processing the batch with ids [3, 1, 5] in that
order ends with offset 5. -/
theorem C1_offset_after_batch_witness :
    ((Bot.init false).process_updates searchNone batch315).1._offset = 5 := by
  have h := C1_offset_after_batch searchNone (Bot.init false) batch315 rfl rfl
    (fun u _ => Nat.zero_le _) (by simp [batch315])
  exact h.1.trans rfl

/-- C2: for a plain text message (no subtype key of the handler table
present), the command table is scanned in registration order and the first
pattern whose (case-insensitive) search matches wins: its handler is
resolved with `(chat, match)` and later-registered patterns are never
consulted — the position in `_commands` is the sole tie-break. -/
theorem C2_first_command_wins
    (search : ReSearch) (b : Bot) (message : Value) (chat : Chat)
    (pre post : List (String × Handler)) (pat : String) (hd : Handler)
    (s : String) (m : RMatch)
    (hchat : Chat.from_message message = .ok chat)
    (hsub : ∀ p ∈ b._handlers, message.hasKey p.1 = false)
    (htext : message.getItem "text" = .ok (.vs s))
    (hcmds : b._commands = pre ++ (pat, hd) :: post)
    (hpre : ∀ q ∈ pre, search q.1 s = none)
    (hm : search pat s = some m) :
    b.process_message search message
      = .ok (some (hd, [.chat chat, .reMatch m])) := by
  have hfind : b._handlers.find? (fun p => message.hasKey p.1) = none :=
    List.find?_eq_none.mpr (fun p hp => by simp [hsub p hp])
  have htk : message.hasKey "text" = true := hasKey_of_getItem_ok htext
  have hscan : scanTable search b._commands (.vs s) = .ok (some (hd, m)) := by
    rw [hcmds, scanTable_append_none search _ hpre]
    exact scanTable_cons_some search hm
  simp [Bot.process_message, hchat, bind_ok_eq, hfind, htk, htext, hscan,
    pure_eq_ok]

/-- C2 witness: with commands "/echo (.+)" then "/e.*" registered in that
order and an oracle under which both patterns match "/echo foo", only the
first handler is resolved. -/
theorem C2_first_command_wins_witness :
    botEcho.process_message searchAll msgEcho
      = .ok (some (.user 1, [.chat ⟨.vn 1, .vs "private", some msgEcho⟩,
          .reMatch { re_pattern := "/echo (.+)", subject := "/echo foo" }])) :=
  C2_first_command_wins searchAll botEcho msgEcho
    ⟨.vn 1, .vs "private", some msgEcho⟩ [] [("/e.*", .user 2)]
    "/echo (.+)" (.user 1) "/echo foo"
    { re_pattern := "/echo (.+)", subject := "/echo foo" }
    rfl (by decide) rfl rfl (by decide) rfl

/-- C3: when a message carries a subtype key, the first entry of the handler
table whose key is present wins: its handler is resolved with
`(chat, payload[subtype])` and nothing else — the command table, the `text`
field and the default handler (arbitrary in `b` here) are never consulted.
The second conjunct pins the fixed scan order: the handler table installed
by `Bot.__init__` has exactly the keys `HANDLER_KEYS` in that order. -/
theorem C3_subtype_precedence
    (search : ReSearch) (b : Bot) (message : Value) (chat : Chat)
    (pre post : List (String × Handler)) (mt : String) (f : Handler)
    (payload : Value)
    (hh : b._handlers = pre ++ (mt, f) :: post)
    (hpre : ∀ p ∈ pre, message.hasKey p.1 = false)
    (hget : message.getItem mt = .ok payload)
    (hchat : Chat.from_message message = .ok chat) :
    (b.process_message search message
      = .ok (some (f, [.chat chat, .val payload])))
    ∧ ∀ dig : Bool, (Bot.init dig)._handlers.map Prod.fst = HANDLER_KEYS := by
  constructor
  · have hkm : message.hasKey mt = true := hasKey_of_getItem_ok hget
    have hfind : b._handlers.find? (fun p => message.hasKey p.1)
        = some (mt, f) := by
      rw [hh, find?_append_eq hpre]
      simp [List.find?, hkm]
    simp [Bot.process_message, hchat, bind_ok_eq, hfind, hget, pure_eq_ok]
  · intro dig; rfl

/-- C3 witness: a message with both a `photo` key and a `text` that matches
the registered "/echo (.+)" command (the oracle matches every pattern)
resolves only the photo subtype handler. -/
theorem C3_subtype_precedence_witness :
    botPhoto.process_message searchAll msgPhotoCmd
      = .ok (some (.user 1,
          [.chat ⟨.vn 1, .vs "private", some msgPhotoCmd⟩, .val (.arr [])])) :=
  (C3_subtype_precedence searchAll botPhoto msgPhotoCmd
    ⟨.vn 1, .vs "private", some msgPhotoCmd⟩
    [("location", .noHandle "location")] (botPhoto._handlers.drop 2)
    "photo" (.user 1) (.arr [])
    rfl (by decide) rfl rfl).1

/-- C4: for a text message matching no subtype key and no command pattern,
the single default handler is resolved with `(chat, message)` exactly when
the chat is not a group/supergroup or `default_in_groups` is on; otherwise
nothing is resolved.  The arguments are the same in both enabled cases. -/
theorem C4_default_suppression
    (search : ReSearch) (b : Bot) (message : Value) (chat : Chat) (s : String)
    (hchat : Chat.from_message message = .ok chat)
    (hsub : ∀ p ∈ b._handlers, message.hasKey p.1 = false)
    (htext : message.getItem "text" = .ok (.vs s))
    (hcmds : ∀ q ∈ b._commands, search q.1 s = none) :
    b.process_message search message
      = .ok (if !chat.is_group || b.default_in_groups
             then some (b._default, [.chat chat, .val message]) else none) := by
  have hfind : b._handlers.find? (fun p => message.hasKey p.1) = none :=
    List.find?_eq_none.mpr (fun p hp => by simp [hsub p hp])
  have htk : message.hasKey "text" = true := hasKey_of_getItem_ok htext
  have hscan : scanTable search b._commands (.vs s) = .ok none :=
    scanTable_none search hcmds
  simp only [Bot.process_message, hchat, bind_ok_eq, hfind, htk, htext, hscan]
  cases hcond : (!chat.is_group || b.default_in_groups) <;>
    simp [hcond, pure_eq_ok]

/-- C4 witness: the group-chat text "hello" with no matching command is
suppressed when `default_in_groups` is off and resolves the default handler
(with the same `(chat, message)` arguments as a private chat would get)
when it is on. -/
theorem C4_default_suppression_witness :
    (Bot.init false).process_message searchNone msgGroupTxt = .ok none
    ∧ (Bot.init true).process_message searchNone msgGroupTxt
        = .ok (some (Handler.initDefault "default",
            [.chat ⟨.vn 2, .vs "group", some msgGroupTxt⟩, .val msgGroupTxt])) := by
  constructor
  · exact (C4_default_suppression searchNone (Bot.init false) msgGroupTxt
      ⟨.vn 2, .vs "group", some msgGroupTxt⟩ "hello"
      rfl (by decide) rfl (by decide)).trans rfl
  · exact (C4_default_suppression searchNone (Bot.init true) msgGroupTxt
      ⟨.vn 2, .vs "group", some msgGroupTxt⟩ "hello"
      rfl (by decide) rfl (by decide)).trans rfl

theorem bool_eq_false_of_not {b : Bool} (h : ¬ b = true) : b = false := by
  cases b with
  | true => exact absurd rfl h
  | false => rfl

theorem ite_pure_push {α : Type} (c : Bool) (x y : α) :
    (if c then (pure x : Except PyErr α) else pure y)
      = .ok (if c then x else y) := by
  cases c <;> rfl

theorem lookup_map_set {α : Type} (k : String) (v : α) :
    ∀ d : List (String × α), d.any (fun p => p.1 == k) = true →
      (d.map (fun p => if p.1 == k then (p.1, v) else p)).lookup k = some v := by
  intro d
  induction d with
  | nil => intro h; simp at h
  | cons p d ih =>
    obtain ⟨pk, pv⟩ := p
    intro h
    simp only [List.map_cons]
    by_cases hp : pk = k
    · subst hp
      rw [if_pos (beq_self_eq_true pk), List.lookup_cons_self]
    · have hp2 : (pk == k) = false := beq_false_of_ne hp
      have hd : d.any (fun p => p.1 == k) = true := by
        rw [List.any_cons] at h
        simp only [hp2, Bool.false_or] at h
        exact h
      have hk : (k == pk) = false := beq_false_of_ne (Ne.symm hp)
      rw [if_neg (by simp [hp2])]
      simp only [List.lookup_cons, hk]
      exact ih hd

theorem lookup_map_set_ne {α : Type} (k k2 : String) (v : α) (hne : k2 ≠ k) :
    ∀ d : List (String × α),
      (d.map (fun p => if p.1 == k then (p.1, v) else p)).lookup k2
        = d.lookup k2 := by
  intro d
  induction d with
  | nil => rfl
  | cons p d ih =>
    obtain ⟨pk, pv⟩ := p
    simp only [List.map_cons]
    by_cases hp : pk = k
    · subst hp
      have h2 : (k2 == pk) = false := beq_false_of_ne hne
      rw [if_pos (beq_self_eq_true pk)]
      simp only [List.lookup_cons, h2]
      exact ih
    · have hp2 : (pk == k) = false := beq_false_of_ne hp
      rw [if_neg (by simp [hp2])]
      cases hk2 : (k2 == pk) with
      | true => simp only [List.lookup_cons, hk2]
      | false =>
        simp only [List.lookup_cons, hk2]
        exact ih

theorem lookup_append_self {α : Type} (k : String) (v : α) :
    ∀ d : List (String × α), d.any (fun p => p.1 == k) = false →
      (d ++ [(k, v)]).lookup k = some v := by
  intro d
  induction d with
  | nil => intro _; simp
  | cons p d ih =>
    obtain ⟨pk, pv⟩ := p
    intro h
    cases hfp : (pk == k) with
    | true => rw [List.any_cons] at h; simp [hfp] at h
    | false =>
      rw [List.any_cons, hfp] at h
      simp only [Bool.false_or] at h
      have hk : (k == pk) = false :=
        beq_false_of_ne (Ne.symm (beq_eq_false_iff_ne.mp hfp))
      rw [List.cons_append]
      simp only [List.lookup_cons, hk]
      exact ih h

theorem lookup_append_other {α : Type} (k k2 : String) (v : α) (hne : k2 ≠ k) :
    ∀ d : List (String × α), (d ++ [(k, v)]).lookup k2 = d.lookup k2 := by
  intro d
  induction d with
  | nil => simp [List.lookup_cons, beq_false_of_ne hne]
  | cons p d ih =>
    obtain ⟨pk, pv⟩ := p
    rw [List.cons_append]
    cases hk2 : (k2 == pk) with
    | true => simp only [List.lookup_cons, hk2]
    | false =>
      simp only [List.lookup_cons, hk2]
      exact ih

theorem lookup_dictSet_self {α : Type} (d : List (String × α)) (k : String)
    (v : α) : (dictSet d k v).lookup k = some v := by
  unfold dictSet
  by_cases hany : d.any (fun p => p.1 == k) = true
  · rw [if_pos hany]
    exact lookup_map_set k v d hany
  · rw [if_neg hany]
    exact lookup_append_self k v d (bool_eq_false_of_not hany)

theorem lookup_dictSet_ne {α : Type} (d : List (String × α)) (k k2 : String)
    (v : α) (hne : k2 ≠ k) :
    (dictSet d k v).lookup k2 = d.lookup k2 := by
  unfold dictSet
  by_cases hany : d.any (fun p => p.1 == k) = true
  · rw [if_pos hany]
    exact lookup_map_set_ne k k2 v hne d
  · rw [if_neg hany]
    exact lookup_append_other k k2 v hne d

/-- C8 (amended): `Bot.handle` accepts any subtype name without validation;
it binds the handler under the given name — replacing an existing binding in
place, appending a new dispatchable entry otherwise — and leaves every other
binding unchanged; no name is ever rejected. -/
theorem C8_handle_registration (b : Bot) (name : String) (cb : Handler) :
    ((b.handle name cb)._handlers.lookup name = some cb)
    ∧ ∀ k, k ≠ name →
        (b.handle name cb)._handlers.lookup k = b._handlers.lookup k :=
  ⟨lookup_dictSet_self b._handlers name cb,
   fun k hk => lookup_dictSet_ne b._handlers name k cb hk⟩

/-- C8 witness: registering "manifesto" on a fresh bot binds that name and
leaves the "photo" binding untouched. -/
theorem C8_handle_registration_witness :
    (((Bot.init false).handle "manifesto" (.user 7))._handlers.lookup
        "manifesto" = some (.user 7))
    ∧ (((Bot.init false).handle "manifesto" (.user 7))._handlers.lookup
        "photo" = (Bot.init false)._handlers.lookup "photo") :=
  ⟨(C8_handle_registration (Bot.init false) "manifesto" (.user 7)).1,
   (C8_handle_registration (Bot.init false) "manifesto" (.user 7)).2
     "photo" (by decide)⟩

/-- C7 (amended): a callback query whose data matches no registered pattern
resolves the default callback handler — exactly once, as the single
resolved invocation — precisely when a chat is derivable and is not a
group/supergroup, or `default_in_groups` is on; otherwise nothing is
resolved.  Default registration replaces the single `_default_callback`
slot, so the last registration wins (second conjunct). -/
theorem C7_default_callback (search : ReSearch) (b : Bot) (query : Value)
    (chat : Option Chat) (cq : CallbackQuery) (s : String)
    (hchat : resolveChat query = .ok chat)
    (hcq : CallbackQuery.make query = .ok cq)
    (hdata : cq.data = .vs s)
    (hnm : ∀ q ∈ b._callbacks, search q.1 s = none) :
    (b.process_callback_query search query
      = .ok (if chatNotGroup chat || b.default_in_groups
             then some (b._default_callback, [chatArg chat, .cbq cq])
             else none))
    ∧ ∀ f g : Handler,
        ((b.callback_default f).callback_default g)._default_callback = g := by
  refine ⟨?_, fun f g => rfl⟩
  have hscan : scanTable search b._callbacks cq.data = .ok none := by
    rw [hdata]; exact scanTable_none search hnm
  simp only [Bot.process_callback_query, hchat, bind_ok_eq, hcq, hscan]
  exact ite_pure_push _ _ _

/-- C7 witness: on a fresh bot, a no-match callback query from a private
chat resolves the default callback handler exactly once, with the chat and
the query as arguments. -/
theorem C7_default_callback_witness :
    (Bot.init false).process_callback_query searchNone cbPrivQuery
      = .ok (some (Handler.initDefault "default_callback",
          [.chat ⟨.vn 1, .vs "private", some (.obj [("chat", chatPrivObj)])⟩,
           .cbq { query_id := .vn 7, data := .vs "x", src := cbPrivQuery }])) := by
  have h := (C7_default_callback searchNone (Bot.init false) cbPrivQuery
    (some ⟨.vn 1, .vs "private", some (.obj [("chat", chatPrivObj)])⟩)
    { query_id := .vn 7, data := .vs "x", src := cbPrivQuery } "x"
    rfl rfl rfl (by decide)).1
  exact h.trans rfl

/-- C9: each polling-loop iteration performs exactly one `getUpdates` call
with `offset = self._offset + 1`, feeding the entire returned batch to the
dispatcher (first conjunct, the loop body); a batch whose `ok` flag is false
is logged and discarded — the bot (offset included) is unchanged and no
update is dispatched, so the next poll requests the same window (second
conjunct). -/
theorem C9_failed_batch_policy (search : ReSearch) (b : Bot)
    (getUpdates : Nat → Batch) :
    (b.loop_iter search getUpdates
      = b.process_updates search (getUpdates (b._offset + 1)))
    ∧ ∀ batch : Batch, batch.ok = false →
        b.process_updates search batch = (b, .ok []) := by
  refine ⟨rfl, fun batch h => ?_⟩
  simp [Bot.process_updates, h]

/-- C9 witness: a failed batch leaves a fresh bot untouched with nothing
dispatched. -/
theorem C9_failed_batch_policy_witness :
    (Bot.init false).process_updates searchNone badBatch
      = (Bot.init false, .ok []) :=
  (C9_failed_batch_policy searchNone (Bot.init false) (fun _ => badBatch)).2
    badBatch rfl

/-- C10: a callback query with no embedded originating message (no chat
derivable) whose data matches no registered pattern resolves the default
callback handler exactly when `default_in_groups` is on, and then with
`None` in place of the chat as first argument; with the flag off nothing is
resolved. -/
theorem C10_no_chat_callback (search : ReSearch) (b : Bot) (query : Value)
    (cq : CallbackQuery) (s : String)
    (hnomsg : query.hasKey "message" = false)
    (hcq : CallbackQuery.make query = .ok cq)
    (hdata : cq.data = .vs s)
    (hnm : ∀ q ∈ b._callbacks, search q.1 s = none) :
    b.process_callback_query search query
      = .ok (if b.default_in_groups
             then some (b._default_callback, [PyObj.pyNone, .cbq cq])
             else none) := by
  have hchat : resolveChat query = .ok none := by
    simp [resolveChat, hnomsg, pure_eq_ok]
  have hscan : scanTable search b._callbacks cq.data = .ok none := by
    rw [hdata]; exact scanTable_none search hnm
  simp only [Bot.process_callback_query, hchat, bind_ok_eq, hcq, hscan,
    chatArg, chatNotGroup, Bool.false_or]
  exact ite_pure_push _ _ _

/-- C10 witness: the chat-less callback query resolves nothing with the flag
off, and resolves the default callback with a `None` chat argument with the
flag on. -/
theorem C10_no_chat_callback_witness :
    (Bot.init false).process_callback_query searchNone cbNoChatQuery = .ok none
    ∧ (Bot.init true).process_callback_query searchNone cbNoChatQuery
        = .ok (some (Handler.initDefault "default_callback",
            [PyObj.pyNone,
             .cbq { query_id := .vn 8, data := .vs "z", src := cbNoChatQuery }])) := by
  constructor
  · exact (C10_no_chat_callback searchNone (Bot.init false) cbNoChatQuery
      { query_id := .vn 8, data := .vs "z", src := cbNoChatQuery } "z"
      rfl rfl rfl (by decide)).trans rfl
  · exact (C10_no_chat_callback searchNone (Bot.init true) cbNoChatQuery
      { query_id := .vn 8, data := .vs "z", src := cbNoChatQuery } "z"
      rfl rfl rfl (by decide)).trans rfl

/-- C6 (amended): classification checks top-level keys in fixed priority
order — the FIVE keys of `MESSAGE_UPDATES` (message, edited_message,
channel_post, edited_channel_post, and also successful_payment, which the
claim omits) first, the first one present winning as the message payload;
only if none matched, inline_query, then callback_query, then
pre_checkout_query, then chosen_inline_result; an update containing none of
these keys resolves no handler (logged and dropped). -/
theorem C6_classification_order (search : ReSearch) (b : Bot) (u : Update) :
    MESSAGE_UPDATES = ["message", "edited_message", "channel_post",
      "edited_channel_post", "successful_payment"]
    ∧ (∀ payload,
        MESSAGE_UPDATES.findSome? (fun ut => u.fields.lookup ut) = some payload →
        (b.process_update search u).2
          = Bot.process_message search
              { b with _offset := max b._offset u.update_id } payload)
    ∧ (MESSAGE_UPDATES.findSome? (fun ut => u.fields.lookup ut) = none →
       ∀ q, u.fields.lookup "inline_query" = some q →
        (b.process_update search u).2
          = Bot.process_inline_query search
              { b with _offset := max b._offset u.update_id } q)
    ∧ (MESSAGE_UPDATES.findSome? (fun ut => u.fields.lookup ut) = none →
       u.fields.lookup "inline_query" = none →
       ∀ q, u.fields.lookup "callback_query" = some q →
        (b.process_update search u).2
          = Bot.process_callback_query search
              { b with _offset := max b._offset u.update_id } q)
    ∧ (MESSAGE_UPDATES.findSome? (fun ut => u.fields.lookup ut) = none →
       u.fields.lookup "inline_query" = none →
       u.fields.lookup "callback_query" = none →
       ∀ q, u.fields.lookup "pre_checkout_query" = some q →
        (b.process_update search u).2
          = Bot.process_pre_checkout_query search
              { b with _offset := max b._offset u.update_id } q)
    ∧ (MESSAGE_UPDATES.findSome? (fun ut => u.fields.lookup ut) = none →
       u.fields.lookup "inline_query" = none →
       u.fields.lookup "callback_query" = none →
       u.fields.lookup "pre_checkout_query" = none →
       ∀ q, u.fields.lookup "chosen_inline_result" = some q →
        (b.process_update search u).2
          = Bot.process_chosen_inline_result search
              { b with _offset := max b._offset u.update_id } q)
    ∧ (MESSAGE_UPDATES.findSome? (fun ut => u.fields.lookup ut) = none →
       u.fields.lookup "inline_query" = none →
       u.fields.lookup "callback_query" = none →
       u.fields.lookup "pre_checkout_query" = none →
       u.fields.lookup "chosen_inline_result" = none →
        (b.process_update search u).2 = .ok none) := by
  refine ⟨rfl, ?_, ?_, ?_, ?_, ?_, ?_⟩
  · intro payload h
    simp [Bot.process_update, h]
  · intro hms q hin
    simp [Bot.process_update, hms, hin]
  · intro hms hin q hcb
    simp [Bot.process_update, hms, hin, hcb]
  · intro hms hin hcb q hpc
    simp [Bot.process_update, hms, hin, hcb, hpc]
  · intro hms hin hcb hpc q hcir
    simp [Bot.process_update, hms, hin, hcb, hpc, hcir]
  · intro hms hin hcb hpc hcir
    simp [Bot.process_update, hms, hin, hcb, hpc, hcir]

/-- C6 witness: an update with a "message" key routes to the message
processor; an update with no recognized key resolves nothing. -/
theorem C6_classification_order_witness :
    ((Bot.init false).process_update searchNone msgUpdate).2
      = Bot.process_message searchNone
          { Bot.init false with
            _offset := max (Bot.init false)._offset msgUpdate.update_id }
          msgEcho
    ∧ ((Bot.init false).process_update searchNone unknownUpdate).2
        = .ok none := by
  refine ⟨(C6_classification_order searchNone (Bot.init false)
    msgUpdate).2.1 msgEcho rfl, ?_⟩
  exact (C6_classification_order searchNone (Bot.init false)
    unknownUpdate).2.2.2.2.2.2 rfl rfl rfl rfl rfl

end Aiotg
